import Mathlib

/-!
Verification of the Kuyo SDK telemetry buffering and delivery engine.

The definitions below are a shallow embedding of the TypeScript sources:
the `FetchTransport` class (metric buffering, size/timer-triggered flush,
batch delivery), the `KuyoCore` class (session management, event envelope
construction, single-event delivery) and the `init` entry point.  JavaScript
`Map`s are modelled as insertion-ordered association lists, `setTimeout`
handles by the delay they were armed with, and the outcome of a `fetch`
call (transport error or HTTP response) is passed in explicitly as an
`Except`/`Bool` parameter at each suspension point.
-/

/-- Characters used by JavaScript `Number.prototype.toString(36)`. -/
def base36DigitChars : List Char := "0123456789abcdefghijklmnopqrstuvwxyz".data

/-- Digit character for one base-36 digit (out-of-range indices fall back). -/
def base36Char (d : Nat) : Char := base36DigitChars.getD d '0'

/-- Base-36 rendering of a natural number, as produced by `toString(36)`. -/
def toChars36 (n : Nat) : List Char :=
  if _h : n < 36 then [base36Char n]
  else toChars36 (n / 36) ++ [base36Char (n % 36)]
decreasing_by
  exact Nat.div_lt_self (by omega) (by norm_num)

/-- String form of `toChars36`. -/
def toString36 (n : Nat) : String := String.mk (toChars36 n)

/-- JavaScript `String.prototype.split` with a single-character separator. -/
def splitCh (c : Char) : List Char → List (List Char)
  | [] => [[]]
  | x :: xs =>
    let r := splitCh c xs
    if x = c then [] :: r else (x :: r.headD []) :: r.tail

/-- Lookup in an insertion-ordered association list (JS `Map.prototype.get`). -/
def mapGet {α : Type} : List (String × α) → String → Option α
  | [], _ => none
  | (k2, v2) :: rest, k => if k2 = k then some v2 else mapGet rest k

/-- Update in an insertion-ordered association list (JS `Map.prototype.set`):
an existing key is updated in place, a new key is appended at the end. -/
def mapSet {α : Type} : List (String × α) → String → α → List (String × α)
  | [], k, v => [(k, v)]
  | (k2, v2) :: rest, k, v =>
    if k2 = k then (k, v) :: rest else (k2, v2) :: mapSet rest k v

/-- Optional `vercel` block of `KuyoConfig`. -/
structure VercelConfig where
  env : Option String
  publicVercelURL : Option String
  productionURL : Option String
deriving DecidableEq

/-- The SDK configuration object (`KuyoConfig`).  Note that it has no field
for any buffering timeout or batch size. -/
structure KuyoConfig where
  apiKey : String
  environment : String
  debug : Bool
  adapter : String
  plugins : List String
  vercel : Option VercelConfig := none
deriving DecidableEq

/-- A session record (`KuyoSession`).  `endedAt` and `duration` are fields
that may be absent, modelled with `Option`; the code stores explicit values
in them. -/
structure KuyoSession where
  id : String
  environment : String
  startedAt : Nat
  endedAt : Option Nat
  duration : Option Nat
  userAgent : String
  ipAddress : String
deriving DecidableEq

/-- An installed adapter, reduced to what the core reads from it: its
`name` tag and the context snapshot returned by `getContext()`. -/
structure KuyoAdapter where
  name : String
  context : List (String × String)
deriving DecidableEq

/-- The mutable state of `KuyoCore` that the embedded operations read. -/
structure CoreState where
  config : KuyoConfig
  adapter : Option KuyoAdapter
  session : Option KuyoSession
deriving DecidableEq

/-- An error/message event envelope (`KuyoError`).  `message`, `stack` and
`extra` have no default in `createEvent`, so they are `Option`s filled only
from the caller's fields.  Context maps are abstracted to association lists
of strings. -/
structure KuyoError where
  id : String
  timestamp : Nat
  message : Option String
  stack : Option String
  level : String
  platform : String
  context : List (String × String)
  extra : Option (List (String × String))
  session : Option KuyoSession
deriving DecidableEq

/-- The `Partial<KuyoError>` argument of `createEvent`: each field is
either absent (`none`) or supplied by the caller. -/
structure EventParams where
  id : Option String := none
  timestamp : Option Nat := none
  message : Option String := none
  stack : Option String := none
  level : Option String := none
  platform : Option String := none
  context : Option (List (String × String)) := none
  extra : Option (List (String × String)) := none
  session : Option (Option KuyoSession) := none
deriving DecidableEq

/-- A JavaScript `Error` as consumed by `captureException`. -/
structure JsError where
  message : String
  stack : Option String
deriving DecidableEq

/-- The part of a `fetch` response that `FetchTransport` inspects. -/
structure FetchResponse where
  ok : Bool
  status : Nat
  statusText : String
deriving DecidableEq

/-- One buffered performance metric (`PerformanceMetric`).  The numeric
value is modelled as an integer; no operation of the engine computes with
it. -/
structure PerformanceMetric where
  type : String
  name : String
  value : Int
  unit : Option String
  timestamp : Nat
  context : Option (List (String × String))
deriving DecidableEq

/-- The wire payload built by `flushMetrics` (`PerformanceBatch`). -/
structure PerformanceBatch where
  sessionId : String
  environment : String
  platform : String
  adapter : String
  metrics : List PerformanceMetric
deriving DecidableEq

/-- The mutable state of a `FetchTransport` instance.  A pending
`setTimeout` handle is modelled by the delay it was armed with. -/
structure TransportState where
  config : KuyoConfig
  endpoint : String
  metricsBuffer : List (String × List PerformanceMetric)
  batchSize : Nat
  batchTimeout : Nat
  batchTimers : List (String × Nat)
deriving DecidableEq

/-- The `FetchTransport` constructor: empty buffers, `batchSize = 50`,
`batchTimeout = 30000` ms, regardless of the configuration. -/
def mkFetchTransport (config : KuyoConfig) (endpoint : String) : TransportState :=
  { config := config
    endpoint := endpoint
    metricsBuffer := []
    batchSize := 50
    batchTimeout := 30000
    batchTimers := [] }

/-- The interval of the periodic full-store sweep started by
`KuyoPerformance.startBatchSending`: the literal `5 * 60 * 1000` ms. -/
def batchSendIntervalMs : Nat := 5 * 60 * 1000

/-- The buffer key derivation in `sendPerformanceMetric`: the template
literal joining session id and platform with a hyphen. -/
def bufferKey (sessionId platform : String) : String :=
  sessionId ++ "-" ++ platform

/-- The pair recovery in `flushMetrics`: destructuring the result of
`bufferKey.split` at the hyphen into session id and platform (a missing
component reads as the empty string). -/
def recoverKey (key : String) : String × String :=
  (String.mk ((splitCh '-' key.data).getD 0 []),
   String.mk ((splitCh '-' key.data).getD 1 []))

/-- Current contents of the buffer for a key (absent key reads as empty). -/
def getBuffer (st : TransportState) (key : String) : List PerformanceMetric :=
  (mapGet st.metricsBuffer key).getD []

/-- Lines 62-68 of `sendPerformanceMetric`: ensure the buffer for the key
exists, then push the metric at its end. -/
def pushMetric (st : TransportState) (key : String) (m : PerformanceMetric) :
    TransportState :=
  { st with metricsBuffer := mapSet st.metricsBuffer key (getBuffer st key ++ [m]) }

/-- A sequence of buffer pushes for one key (used to represent the records
other producers add while a delivery for that key is in flight). -/
def pushAll (st : TransportState) (key : String) (ms : List PerformanceMetric) :
    TransportState :=
  ms.foldl (fun s m => pushMetric s key m) st

/-- `FetchTransport.flushMetrics` with the network outcome of the batch
POST passed as `ok`, and no interleaved activity during the `await`:
a missing or empty buffer is a no-op; on a 2xx response the buffer for the
key is replaced by a fresh empty array; on failure nothing changes. -/
def flushMetrics (st : TransportState) (key : String) (ok : Bool) : TransportState :=
  match mapGet st.metricsBuffer key with
  | none => st
  | some metrics =>
    if metrics.isEmpty then st
    else if ok then { st with metricsBuffer := mapSet st.metricsBuffer key [] }
    else st

/-- The `PerformanceBatch` payload that `flushMetrics` builds from the
buffer contents at the start of the call (the array is copied), with
session id and platform recovered by splitting the key. -/
def flushBatch (st : TransportState) (key : String) : Option PerformanceBatch :=
  if (getBuffer st key).isEmpty then none
  else some
    { sessionId := (recoverKey key).1
      environment := st.config.environment
      platform := (recoverKey key).2
      adapter := st.config.adapter
      metrics := getBuffer st key }

/-- `FetchTransport.flushMetrics` with the records pushed for the same key
during the in-flight `await fetch` made explicit as `arrivals`: the batch
is captured as a copy before the request; the live array keeps receiving
pushes; a 2xx response replaces the whole buffer for the key with a fresh
empty array; a failure leaves the buffer as it stands. -/
def flushMetricsFlight (st : TransportState) (key : String)
    (arrivals : List PerformanceMetric) (ok : Bool) : TransportState :=
  if (getBuffer st key).isEmpty then st
  else
    let stDuring := pushAll st key arrivals
    if ok then { stDuring with metricsBuffer := mapSet stDuring.metricsBuffer key [] }
    else stDuring

/-- `FetchTransport.sendPerformanceMetric`: push the metric under the
derived buffer key; if the buffer has reached `batchSize`, flush the key
immediately (with delivery outcome `ok`); otherwise arm an idle timer for
the key unless one is already pending. -/
def sendPerformanceMetric (st : TransportState) (sessionId platform : String)
    (m : PerformanceMetric) (ok : Bool) : TransportState :=
  let key := bufferKey sessionId platform
  let st1 := pushMetric st key m
  if st1.batchSize ≤ (getBuffer st1 key).length then
    flushMetrics st1 key ok
  else if (mapGet st1.batchTimers key).isSome then st1
  else { st1 with batchTimers := mapSet st1.batchTimers key st1.batchTimeout }

/-- `FetchTransport.flushAllMetrics`: snapshot the key list, then flush
each key in insertion order; `ok` gives the delivery outcome per key. -/
def flushAllMetrics (st : TransportState) (ok : String → Bool) : TransportState :=
  (st.metricsBuffer.map Prod.fst).foldl (fun s k => flushMetrics s k (ok k)) st

/-- `FetchTransport.destroy`: clear every pending timer and every buffer. -/
def destroy (st : TransportState) : TransportState :=
  { st with batchTimers := [], metricsBuffer := [] }

/-- The session id template of `initSession`:
a literal tag, the current time in base 36, and a random base-36 suffix. -/
def kuyoIdTag : String := "kuyo_"

/-- Underscore joining the two id components. -/
def underscoreStr : String := "_"

/-- `initSession`'s generated id, with the clock reading and the random
draw's base-36 digits passed as numbers. -/
def generateSessionId (now rand : Nat) : String :=
  kuyoIdTag ++ toString36 now ++ underscoreStr ++ toString36 rand

/-- Fallback environment name used when the configured one is falsy. -/
def productionEnv : String := "production"

/-- Loopback address stored in a fresh session. -/
def loopbackAddr : String := "127.0.0.1"

/-- `KuyoCore.initSession` with the `sessionStorage` slot for
`kuyo_session` passed in and returned explicitly: an existing persisted
record is reused; otherwise a fresh session is synthesized (with `endedAt`
and `duration` stored as `0`) and persisted immediately. -/
def initSession (cfg : KuyoConfig) (storage : Option KuyoSession)
    (now rand : Nat) (ua : String) : KuyoSession × Option KuyoSession :=
  match storage with
  | some s => (s, some s)
  | none =>
    let s : KuyoSession :=
      { id := generateSessionId now rand
        environment := if cfg.environment = "" then productionEnv else cfg.environment
        startedAt := now
        endedAt := some 0
        duration := some 0
        userAgent := ua
        ipAddress := loopbackAddr }
    (s, some s)

/-- The `KuyoCore` constructor: runs `initSession` and starts with no
adapter registered. -/
def KuyoCore.mk (cfg : KuyoConfig) (storage : Option KuyoSession)
    (now rand : Nat) (ua : String) : CoreState × Option KuyoSession :=
  let p := initSession cfg storage now rand ua
  ({ config := cfg, adapter := none, session := some p.1 }, p.2)

/-- `KuyoCore.generateId`: random base-36 digits followed by the current
time in base 36. -/
def generateId (rand now : Nat) : String :=
  toString36 rand ++ toString36 now

/-- JavaScript `a || b` on an optional string (absent and empty are falsy). -/
def jsOr (s : Option String) (d : String) : String :=
  match s with
  | none => d
  | some v => if v = "" then d else v

/-- Default platform tag when no adapter supplies one. -/
def unknownPlatform : String := "unknown"

/-- Default level of an event envelope. -/
def errorLevel : String := "error"

/-- `KuyoCore.createEvent`: build the default envelope (generated id,
current timestamp, level error, adapter tag or unknown, adapter context
snapshot or empty, current session) and let every field present in
`params` take precedence via object spread. -/
def KuyoCore.createEvent (core : CoreState) (params : EventParams)
    (now rand : Nat) : KuyoError :=
  { id := params.id.getD (generateId rand now)
    timestamp := params.timestamp.getD now
    message := params.message
    stack := params.stack
    level := params.level.getD errorLevel
    platform := params.platform.getD (jsOr (core.adapter.map KuyoAdapter.name) unknownPlatform)
    context := params.context.getD ((core.adapter.map KuyoAdapter.context).getD [])
    extra := params.extra
    session := params.session.getD core.session }

/-- Leading text of the error thrown for a non-2xx response. -/
def httpErrTag : String := "HTTP "

/-- Separator between status code and status text in that error. -/
def colonSep : String := ": "

/-- `FetchTransport.send` with the `fetch` outcome passed in: a transport
error propagates, a non-2xx response is turned into a thrown `HTTP ...`
error, a 2xx response succeeds. -/
def FetchTransport.send (net : Except String FetchResponse) : Except String Unit :=
  match net with
  | Except.error e => Except.error e
  | Except.ok r =>
    if r.ok then Except.ok ()
    else Except.error (httpErrTag ++ toString r.status ++ colonSep ++ r.statusText)

/-- Placeholder text JavaScript interpolates for an absent message. -/
def undefinedText : String := "undefined"

/-- Log line prefixes of `sendEvent` (the debug gate only suppresses
printing; the log calls themselves are recorded). -/
def logSendingTag : String := "Sending event: "

/-- Log line emitted after a successful send. -/
def logSentTag : String := "Event sent: "

/-- Log line emitted from the catch branch after a failed send. -/
def logFailedTag : String := "Failed to send event: "

/-- `KuyoCore.sendEvent`: the transport send is wrapped in try/catch; the
result is the list of log calls made, and the function itself never
throws (the catch branch only logs). -/
def KuyoCore.sendEvent (ev : KuyoError) (net : Except String FetchResponse) :
    Except String (List String) :=
  match FetchTransport.send net with
  | Except.ok _ =>
    Except.ok [logSendingTag ++ ev.message.getD undefinedText,
               logSentTag ++ ev.id]
  | Except.error e =>
    Except.ok [logSendingTag ++ ev.message.getD undefinedText,
               logFailedTag ++ e]

/-- `KuyoCore.captureException`: build the envelope from the error and
send it fire-and-forget. -/
def KuyoCore.captureException (core : CoreState) (err : JsError)
    (extra : Option (List (String × String))) (now rand : Nat)
    (net : Except String FetchResponse) : Except String (List String) :=
  KuyoCore.sendEvent
    (KuyoCore.createEvent core
      { message := some err.message
        stack := err.stack
        level := some errorLevel
        extra := extra } now rand) net

/-- `KuyoCore.captureMessage`: build the envelope from the message and
level and send it fire-and-forget. -/
def KuyoCore.captureMessage (core : CoreState) (msg lvl : String)
    (extra : Option (List (String × String))) (now rand : Nat)
    (net : Except String FetchResponse) : Except String (List String) :=
  KuyoCore.sendEvent
    (KuyoCore.createEvent core
      { message := some msg
        level := some lvl
        extra := extra } now rand) net

/-- Name tag of the only supported adapter. -/
def nextjsTag : String := "nextjs"

/-- Leading text of the error thrown for an unsupported adapter tag. -/
def unsupportedMsg : String := "Unsupported adapter: "

/-- `getAdapter` in `index.ts`: only the `nextjs` tag is supported, every
other tag throws `Unsupported adapter: ...`.  The context snapshot of the
adapter is left empty here; no claim depends on its contents. -/
def getAdapterFor (tag : String) : Except String KuyoAdapter :=
  if tag = nextjsTag then Except.ok { name := nextjsTag, context := [] }
  else Except.error (unsupportedMsg ++ tag)

/-- Result of running `init`: the module-level core instance (if it was
assigned) and the error thrown out of `init` (if any). -/
structure InitOutcome where
  globalCore : Option CoreState
  thrown : Option String
deriving DecidableEq

/-- `init` in `index.ts`: construct the core (assigning the module-level
instance), resolve the adapter for the configured tag, and install it;
an unsupported tag throws before any adapter is installed.  Nothing in
this path inspects `apiKey`. -/
def init (cfg : KuyoConfig) (storage : Option KuyoSession)
    (now rand : Nat) (ua : String) : InitOutcome :=
  let core := (KuyoCore.mk cfg storage now rand ua).1
  match getAdapterFor cfg.adapter with
  | Except.error e => { globalCore := some core, thrown := some e }
  | Except.ok a =>
    { globalCore := some { core with adapter := some a }, thrown := none }

/-! Concrete fixtures used by witnesses and counterexamples. -/

/-- Fixture: the hard-coded collector endpoint of `KuyoCore`. -/
def endpointLocal : String := "http://localhost:8000/api"

/-- Fixture: a different endpoint string. -/
def endpointOther : String := "https://collector.example"

/-- Fixture: a user-agent string. -/
def uaTest : String := "test-agent"

/-- Fixture: another user-agent string. -/
def uaTest2 : String := "other-agent"

/-- Fixture: a session id with no hyphen. -/
def sidS : String := "s"

/-- Fixture: the browser platform tag. -/
def platBrowser : String := "browser"

/-- Fixture: the buffer key of `sidS` on the browser platform. -/
def keySB : String := bufferKey sidS platBrowser

/-- Fixture: session id for the split examples. -/
def sidA : String := "a"

/-- Fixture: second split component. -/
def strB : String := "b"

/-- Fixture: a session id containing a hyphen. -/
def sidAB : String := "a-b"

/-- Fixture: a platform-position string containing a hyphen. -/
def platBC : String := "b-c"

/-- Fixture: third split component. -/
def platC : String := "c"

/-- Fixture: a hyphen-free session id. -/
def sidAbc : String := "abc"

/-- Fixture: a development configuration. -/
def cfgDev : KuyoConfig :=
  { apiKey := "key-dev"
    environment := "development"
    debug := true
    adapter := "nextjs"
    plugins := ["performance"]
    vercel := none }

/-- Fixture: a production configuration differing from `cfgDev` in every
plain field. -/
def cfgProd : KuyoConfig :=
  { apiKey := "key-prod"
    environment := "production"
    debug := false
    adapter := "other"
    plugins := []
    vercel := none }

/-- Fixture: a configuration with an empty (missing) API key and the
supported adapter tag. -/
def cfgNoKey : KuyoConfig :=
  { apiKey := ""
    environment := "production"
    debug := false
    adapter := "nextjs"
    plugins := []
    vercel := none }

/-- Fixture: a configuration naming an unsupported adapter tag. -/
def cfgBad : KuyoConfig :=
  { apiKey := "key-bad"
    environment := "production"
    debug := false
    adapter := "sveltekit"
    plugins := []
    vercel := none }

/-- Fixture: a web-vitals metric. -/
def metricLcp : PerformanceMetric :=
  { type := "web_vitals"
    name := "lcp"
    value := 1200
    unit := none
    timestamp := 0
    context := none }

/-- Fixture: a memory metric. -/
def metricHeap : PerformanceMetric :=
  { type := "memory"
    name := "heap_used"
    value := 45
    unit := none
    timestamp := 1
    context := none }

/-- Fixture: transport with one buffered record for `keySB` and no timer. -/
def stC1 : TransportState :=
  { config := cfgDev
    endpoint := endpointLocal
    metricsBuffer := [(keySB, [metricLcp])]
    batchSize := 50
    batchTimeout := 30000
    batchTimers := [] }

/-- Fixture: transport with 49 buffered records for `keySB` and a pending
idle timer for it. -/
def stC3 : TransportState :=
  { config := cfgDev
    endpoint := endpointLocal
    metricsBuffer := [(keySB, List.replicate 49 metricLcp)]
    batchSize := 50
    batchTimeout := 30000
    batchTimers := [(keySB, 30000)] }

/-- Fixture: transport with one buffered record for `keySB` and a pending
idle timer for it. -/
def stC4 : TransportState :=
  { config := cfgDev
    endpoint := endpointLocal
    metricsBuffer := [(keySB, [metricLcp])]
    batchSize := 50
    batchTimeout := 30000
    batchTimers := [(keySB, 30000)] }

/-- Fixture: an adapter context snapshot entry. -/
def ctxRuntime : String := "runtime"

/-- Fixture: the adapter's registered context value. -/
def ctxEdge : String := "edge"

/-- Fixture: an installed adapter with a nonempty context snapshot. -/
def adapterFx : KuyoAdapter :=
  { name := nextjsTag, context := [(ctxRuntime, ctxEdge)] }

/-- Fixture: a persisted session record. -/
def sessionFx : KuyoSession :=
  { id := "kuyo_fx"
    environment := "production"
    startedAt := 0
    endedAt := some 0
    duration := some 0
    userAgent := uaTest
    ipAddress := loopbackAddr }

/-- Fixture: a core with an adapter installed and a live session. -/
def coreFx : CoreState :=
  { config := cfgDev, adapter := some adapterFx, session := some sessionFx }

/-- Fixture: an error message. -/
def boomMsg : String := "boom"

/-- Fixture: a caller-chosen event id. -/
def customId : String := "custom-id"

/-- Fixture: a JavaScript error. -/
def errFx : JsError := { message := boomMsg, stack := none }

/-- Fixture: an already-built event envelope. -/
def evFx : KuyoError :=
  { id := "ev1"
    timestamp := 0
    message := some boomMsg
    stack := none
    level := errorLevel
    platform := nextjsTag
    context := []
    extra := none
    session := none }

/-- Fixture: a non-2xx HTTP response. -/
def r500 : FetchResponse :=
  { ok := false, status := 500, statusText := "Internal Server Error" }

/-- Fixture: caller-supplied event fields with only the id set. -/
def paramsFx : EventParams := { id := some customId }

theorem mapGet_mapSet_self {α : Type} (m : List (String × α)) (k : String) (v : α) :
    mapGet (mapSet m k v) k = some v := by
  induction m with
  | nil => simp [mapSet, mapGet]
  | cons kv rest ih =>
    obtain ⟨k2, v2⟩ := kv
    by_cases h : k2 = k
    · simp [mapSet, mapGet, h]
    · simp [mapSet, mapGet, h, ih]

theorem mapGet_mapSet_ne {α : Type} (m : List (String × α)) (k k2 : String) (v : α)
    (h : k2 ≠ k) : mapGet (mapSet m k v) k2 = mapGet m k2 := by
  have hk : k ≠ k2 := Ne.symm h
  induction m with
  | nil => simp [mapSet, mapGet, hk]
  | cons kv rest ih =>
    obtain ⟨k3, v3⟩ := kv
    by_cases h3 : k3 = k
    · subst h3
      simp [mapSet, mapGet, hk]
    · simp [mapSet, mapGet, h3, ih]

theorem mapSet_of_get_none {α : Type} (m : List (String × α)) (k : String) (v : α)
    (h : mapGet m k = none) : mapSet m k v = m ++ [(k, v)] := by
  induction m with
  | nil => simp [mapSet]
  | cons kv rest ih =>
    obtain ⟨k2, v2⟩ := kv
    by_cases h2 : k2 = k
    · simp [mapGet, h2] at h
    · simp [mapGet, h2] at h
      simp [mapSet, h2, ih h]

theorem mapGet_some_mem {α : Type} (m : List (String × α)) (k : String) (v : α)
    (h : mapGet m k = some v) : k ∈ m.map Prod.fst := by
  induction m with
  | nil => simp [mapGet] at h
  | cons kv rest ih =>
    obtain ⟨k2, v2⟩ := kv
    by_cases h2 : k2 = k
    · simp [h2]
    · simp [mapGet, h2] at h
      simp [ih h]

theorem getBuffer_pushMetric_self (st : TransportState) (k : String)
    (m : PerformanceMetric) :
    getBuffer (pushMetric st k m) k = getBuffer st k ++ [m] := by
  simp [pushMetric, getBuffer, mapGet_mapSet_self]

theorem getBuffer_pushMetric_ne (st : TransportState) (k k2 : String)
    (m : PerformanceMetric) (h : k2 ≠ k) :
    getBuffer (pushMetric st k m) k2 = getBuffer st k2 := by
  simp [pushMetric, getBuffer, mapGet_mapSet_ne _ _ _ _ h]

theorem pushMetric_fields (st : TransportState) (k : String) (m : PerformanceMetric) :
    (pushMetric st k m).batchTimers = st.batchTimers ∧
    (pushMetric st k m).batchSize = st.batchSize ∧
    (pushMetric st k m).batchTimeout = st.batchTimeout ∧
    (pushMetric st k m).config = st.config := by
  simp [pushMetric]

theorem getBuffer_pushAll_self (st : TransportState) (k : String)
    (ms : List PerformanceMetric) :
    getBuffer (pushAll st k ms) k = getBuffer st k ++ ms := by
  induction ms generalizing st with
  | nil => simp [pushAll]
  | cons m rest ih =>
    have : pushAll st k (m :: rest) = pushAll (pushMetric st k m) k rest := rfl
    rw [this, ih, getBuffer_pushMetric_self, List.append_assoc]
    rfl

theorem flushMetrics_false (st : TransportState) (k : String) :
    flushMetrics st k false = st := by
  unfold flushMetrics
  split
  · rfl
  · split
    · rfl
    · simp

theorem flushMetrics_batchTimers (st : TransportState) (k : String) (ok : Bool) :
    (flushMetrics st k ok).batchTimers = st.batchTimers := by
  unfold flushMetrics
  split
  · rfl
  · split
    · rfl
    · split <;> rfl

theorem getBuffer_flushMetrics_true (st : TransportState) (k : String) :
    getBuffer (flushMetrics st k true) k = [] := by
  unfold flushMetrics
  split
  next heq => simp [getBuffer, heq]
  next ms heq =>
    split
    next hemp => simp [getBuffer, heq, List.isEmpty_iff.mp hemp]
    next => simp [getBuffer, mapGet_mapSet_self]

theorem getBuffer_flushMetrics_ne (st : TransportState) (k k2 : String) (ok : Bool)
    (h : k2 ≠ k) : getBuffer (flushMetrics st k ok) k2 = getBuffer st k2 := by
  unfold flushMetrics
  split
  · rfl
  · split
    · rfl
    · split
      · simp [getBuffer, mapGet_mapSet_ne _ _ _ _ h]
      · rfl

theorem splitCh_of_not_mem (c : Char) (b : List Char) (h : c ∉ b) :
    splitCh c b = [b] := by
  induction b with
  | nil => rfl
  | cons x xs ih =>
    have hx : x ≠ c := by
      intro hxc
      exact h (by simp [hxc])
    have hxs : c ∉ xs := by
      intro hm
      exact h (by simp [hm])
    simp [splitCh, hx, ih hxs]

theorem splitCh_append (c : Char) (a b : List Char) (h : c ∉ a) :
    splitCh c (a ++ c :: b) = a :: splitCh c b := by
  induction a with
  | nil => simp [splitCh]
  | cons x xs ih =>
    have hx : x ≠ c := by
      intro hxc
      exact h (by simp [hxc])
    have hxs : c ∉ xs := by
      intro hm
      exact h (by simp [hm])
    simp [splitCh, hx, ih hxs]

theorem data_bufferKey (sid p : String) :
    (bufferKey sid p).data = sid.data ++ '-' :: p.data := by
  have h0 : (bufferKey sid p).data = (sid.data ++ ['-']) ++ p.data := rfl
  rw [h0, List.append_assoc]
  rfl

theorem recoverKey_bufferKey (sid p : String)
    (h1 : '-' ∉ sid.data) (h2 : '-' ∉ p.data) :
    recoverKey (bufferKey sid p) = (sid, p) := by
  have hsplit : splitCh '-' (bufferKey sid p).data = [sid.data, p.data] := by
    rw [data_bufferKey, splitCh_append '-' sid.data p.data h1,
        splitCh_of_not_mem '-' p.data h2]
  unfold recoverKey
  rw [hsplit]
  rfl

theorem base36Char_ne_dash (d : Nat) : base36Char d ≠ '-' := by
  by_cases h : d < 36
  · have hall : ∀ e, e < 36 → base36DigitChars.getD e '0' ≠ '-' := by decide
    exact hall d h
  · unfold base36Char
    rw [List.getD_eq_default]
    · decide
    · have hlen : base36DigitChars.length = 36 := by decide
      omega

theorem toChars36_no_dash (n : Nat) : '-' ∉ toChars36 n := by
  induction n using Nat.strong_induction_on with
  | _ n ih =>
    rw [toChars36]
    split
    · intro hmem
      have he : '-' = base36Char n := List.mem_singleton.mp hmem
      exact base36Char_ne_dash n he.symm
    next hge =>
      intro hmem
      rcases List.mem_append.mp hmem with hm | hm
      · exact ih (n / 36) (Nat.div_lt_self (by omega) (by norm_num)) hm
      · have he : '-' = base36Char (n % 36) := List.mem_singleton.mp hm
        exact base36Char_ne_dash _ he.symm

theorem generateSessionId_no_dash (now rand : Nat) :
    '-' ∉ (generateSessionId now rand).data := by
  have hdata : (generateSessionId now rand).data
      = ((kuyoIdTag.data ++ toChars36 now) ++ underscoreStr.data) ++ toChars36 rand := rfl
  rw [hdata]
  intro hmem
  rcases List.mem_append.mp hmem with hm | hm
  · rcases List.mem_append.mp hm with hm2 | hm2
    · rcases List.mem_append.mp hm2 with hm3 | hm3
      · revert hm3
        decide
      · exact toChars36_no_dash now hm3
    · revert hm2
      decide
  · exact toChars36_no_dash rand hm

theorem getBuffer_flushMetricsFlight_true (s : TransportState) (k : String)
    (arr : List PerformanceMetric) (h : getBuffer s k ≠ []) :
    getBuffer (flushMetricsFlight s k arr true) k = [] := by
  have hbe : (getBuffer s k).isEmpty = false := by
    cases hgb : getBuffer s k with
    | nil => exact absurd hgb h
    | cons a l => rfl
  unfold flushMetricsFlight
  rw [if_neg (by simp [hbe])]
  simp [getBuffer, mapGet_mapSet_self]

theorem flushBatch_of_ne_nil (s : TransportState) (k : String)
    (h : getBuffer s k ≠ []) :
    (flushBatch s k).map PerformanceBatch.metrics = some (getBuffer s k) := by
  have hbe : (getBuffer s k).isEmpty = false := by
    cases hgb : getBuffer s k with
    | nil => exact absurd hgb h
    | cons a l => rfl
  unfold flushBatch
  rw [if_neg (by simp [hbe])]
  rfl

/-- C1: for every buffer key, when a batch delivery fails, the records
captured for that batch are still in the buffer afterwards, sitting in
front of (and in original relative order with) every record pushed for the
key during the in-flight delivery; the next flush captures exactly the old
batch followed by those arrivals as its payload, and a successful such
flush empties the buffer — so across the failed attempt and the next
successful flush each record is delivered exactly once. -/
theorem c1_failed_flush_merges_and_retries (st : TransportState) (sid p : String)
    (arrivals : List PerformanceMetric)
    (h : getBuffer st (bufferKey sid p) ≠ []) :
    getBuffer (flushMetricsFlight st (bufferKey sid p) arrivals false) (bufferKey sid p)
      = getBuffer st (bufferKey sid p) ++ arrivals ∧
    (flushBatch (flushMetricsFlight st (bufferKey sid p) arrivals false)
        (bufferKey sid p)).map PerformanceBatch.metrics
      = some (getBuffer st (bufferKey sid p) ++ arrivals) ∧
    getBuffer
      (flushMetricsFlight (flushMetricsFlight st (bufferKey sid p) arrivals false)
        (bufferKey sid p) [] true) (bufferKey sid p) = [] := by
  have hbe : (getBuffer st (bufferKey sid p)).isEmpty = false := by
    cases hgb : getBuffer st (bufferKey sid p) with
    | nil => exact absurd hgb h
    | cons a l => rfl
  have hst1 : flushMetricsFlight st (bufferKey sid p) arrivals false
      = pushAll st (bufferKey sid p) arrivals := by
    simp [flushMetricsFlight, hbe]
  have hbuf1 : getBuffer (flushMetricsFlight st (bufferKey sid p) arrivals false)
      (bufferKey sid p) = getBuffer st (bufferKey sid p) ++ arrivals := by
    rw [hst1, getBuffer_pushAll_self]
  have hne1 : getBuffer (flushMetricsFlight st (bufferKey sid p) arrivals false)
      (bufferKey sid p) ≠ [] := by
    rw [hbuf1]
    intro heq
    exact h (List.append_eq_nil.mp heq).1
  have hbe1 : (getBuffer (flushMetricsFlight st (bufferKey sid p) arrivals false)
      (bufferKey sid p)).isEmpty = false := by
    cases hgb : getBuffer (flushMetricsFlight st (bufferKey sid p) arrivals false)
        (bufferKey sid p) with
    | nil => exact absurd hgb hne1
    | cons a l => rfl
  refine ⟨hbuf1, ?_, ?_⟩
  · rw [flushBatch_of_ne_nil _ _ hne1, hbuf1]
  · exact getBuffer_flushMetricsFlight_true _ _ _ hne1

/-- Witness for C1: one buffered record, one record arriving while the
failing delivery is in flight. -/
theorem c1_witness :
    getBuffer stC1 (bufferKey sidS platBrowser) ≠ [] ∧
    (getBuffer (flushMetricsFlight stC1 (bufferKey sidS platBrowser) [metricHeap] false)
        (bufferKey sidS platBrowser)
      = getBuffer stC1 (bufferKey sidS platBrowser) ++ [metricHeap] ∧
     (flushBatch (flushMetricsFlight stC1 (bufferKey sidS platBrowser) [metricHeap] false)
        (bufferKey sidS platBrowser)).map PerformanceBatch.metrics
      = some (getBuffer stC1 (bufferKey sidS platBrowser) ++ [metricHeap]) ∧
     getBuffer
      (flushMetricsFlight
        (flushMetricsFlight stC1 (bufferKey sidS platBrowser) [metricHeap] false)
        (bufferKey sidS platBrowser) [] true) (bufferKey sidS platBrowser) = []) :=
  ⟨by decide, c1_failed_flush_merges_and_retries stC1 sidS platBrowser [metricHeap] (by decide)⟩

/-- C2: concrete evidence of the known defect.  With one record buffered
for the key and one record pushed during a delivery that succeeds, the
batch that was sent contains only the old record, yet the buffer is left
empty afterwards: the in-flight arrival is neither sent nor retained,
contradicting the claimed swap-out semantics (the spec itself marks the
legacy clear-all success path as the defect). -/
theorem c2_success_clears_inflight_arrival :
    (flushBatch stC1 (bufferKey sidS platBrowser)).map PerformanceBatch.metrics
      = some [metricLcp] ∧
    getBuffer (flushMetricsFlight stC1 (bufferKey sidS platBrowser) [metricHeap] true)
      (bufferKey sidS platBrowser) = [] := by
  refine ⟨by decide, by decide⟩

/-- C3 counterexample: with 49 records buffered for the key and an idle
timer pending for it, adding the 50th record triggers the immediate flush
(the buffer is left empty on success) but the pending timer is NOT
cancelled — `sendPerformanceMetric` never touches `batchTimers` on the
size-triggered path, refuting the claimed cancellation. -/
theorem c3_counterexample :
    (sendPerformanceMetric stC3 sidS platBrowser metricHeap true).batchTimers
      = [(bufferKey sidS platBrowser, 30000)] ∧
    getBuffer (sendPerformanceMetric stC3 sidS platBrowser metricHeap true)
      (bufferKey sidS platBrowser) = [] := by
  refine ⟨by decide, by decide⟩

/-- C3 (amended): when an `addMetric` call makes the buffer for a key
reach the size threshold, an immediate flush of exactly that key is
triggered — the batch payload is the buffer including the new record, a
successful delivery leaves the key's buffer empty and every other buffer
untouched, a failed delivery retains all records — but the pending
idle-flush timer map is left completely unchanged (no timer is cancelled). -/
theorem c3_amended (st : TransportState) (sid p : String) (m : PerformanceMetric)
    (h : (getBuffer st (bufferKey sid p)).length + 1 = st.batchSize) :
    (∀ ok : Bool, (sendPerformanceMetric st sid p m ok).batchTimers = st.batchTimers) ∧
    (flushBatch (pushMetric st (bufferKey sid p) m) (bufferKey sid p)).map
        PerformanceBatch.metrics = some (getBuffer st (bufferKey sid p) ++ [m]) ∧
    getBuffer (sendPerformanceMetric st sid p m true) (bufferKey sid p) = [] ∧
    (∀ k2, k2 ≠ bufferKey sid p →
      getBuffer (sendPerformanceMetric st sid p m true) k2 = getBuffer st k2) ∧
    getBuffer (sendPerformanceMetric st sid p m false) (bufferKey sid p)
      = getBuffer st (bufferKey sid p) ++ [m] := by
  have hc : (pushMetric st (bufferKey sid p) m).batchSize
      ≤ (getBuffer (pushMetric st (bufferKey sid p) m) (bufferKey sid p)).length := by
    have hlen : (getBuffer (pushMetric st (bufferKey sid p) m) (bufferKey sid p)).length
        = (getBuffer st (bufferKey sid p)).length + 1 := by
      rw [getBuffer_pushMetric_self]
      simp
    have hbs : (pushMetric st (bufferKey sid p) m).batchSize = st.batchSize := rfl
    rw [hlen, hbs, ← h]
  have hsend : ∀ ok : Bool, sendPerformanceMetric st sid p m ok
      = flushMetrics (pushMetric st (bufferKey sid p) m) (bufferKey sid p) ok := by
    intro ok
    unfold sendPerformanceMetric
    rw [if_pos hc]
  have hne : getBuffer (pushMetric st (bufferKey sid p) m) (bufferKey sid p) ≠ [] := by
    rw [getBuffer_pushMetric_self]
    simp
  refine ⟨?_, ?_, ?_, ?_, ?_⟩
  · intro ok
    rw [hsend ok, flushMetrics_batchTimers]
    exact (pushMetric_fields st _ m).1
  · rw [flushBatch_of_ne_nil _ _ hne, getBuffer_pushMetric_self]
  · rw [hsend true, getBuffer_flushMetrics_true]
  · intro k2 hk2
    rw [hsend true, getBuffer_flushMetrics_ne _ _ _ _ hk2,
        getBuffer_pushMetric_ne _ _ _ _ hk2]
  · rw [hsend false, flushMetrics_false, getBuffer_pushMetric_self]

/-- Witness for C3 (amended) at the 49-record fixture. -/
theorem c3_witness :
    (getBuffer stC3 (bufferKey sidS platBrowser)).length + 1 = stC3.batchSize ∧
    ((∀ ok : Bool, (sendPerformanceMetric stC3 sidS platBrowser metricLcp ok).batchTimers
        = stC3.batchTimers) ∧
     (flushBatch (pushMetric stC3 (bufferKey sidS platBrowser) metricLcp)
        (bufferKey sidS platBrowser)).map PerformanceBatch.metrics
        = some (getBuffer stC3 (bufferKey sidS platBrowser) ++ [metricLcp]) ∧
     getBuffer (sendPerformanceMetric stC3 sidS platBrowser metricLcp true)
        (bufferKey sidS platBrowser) = [] ∧
     (∀ k2, k2 ≠ bufferKey sidS platBrowser →
        getBuffer (sendPerformanceMetric stC3 sidS platBrowser metricLcp true) k2
          = getBuffer stC3 k2) ∧
     getBuffer (sendPerformanceMetric stC3 sidS platBrowser metricLcp false)
        (bufferKey sidS platBrowser)
        = getBuffer stC3 (bufferKey sidS platBrowser) ++ [metricLcp]) :=
  ⟨by decide, c3_amended stC3 sidS platBrowser metricLcp (by decide)⟩

theorem foldl_flush_timers (ks : List String) (ok : String → Bool) :
    ∀ s : TransportState,
      (List.foldl (fun s2 k2 => flushMetrics s2 k2 (ok k2)) s ks).batchTimers
        = s.batchTimers := by
  induction ks with
  | nil => intro s; rfl
  | cons k0 rest ih =>
    intro s
    have hstep : List.foldl (fun s2 k2 => flushMetrics s2 k2 (ok k2)) s (k0 :: rest)
        = List.foldl (fun s2 k2 => flushMetrics s2 k2 (ok k2))
            (flushMetrics s k0 (ok k0)) rest := rfl
    rw [hstep, ih, flushMetrics_batchTimers]

theorem foldl_flush_drain (ks : List String) (ok : String → Bool)
    (hok : ∀ k, ok k = true) :
    ∀ s : TransportState, (∀ k, getBuffer s k ≠ [] → k ∈ ks) →
      ∀ k, getBuffer (List.foldl (fun s2 k2 => flushMetrics s2 k2 (ok k2)) s ks) k = [] := by
  induction ks with
  | nil =>
    intro s h k
    by_cases hk : getBuffer s k = []
    · exact hk
    · exact absurd (h k hk) (List.not_mem_nil k)
  | cons k0 rest ih =>
    intro s h k
    have hstep : List.foldl (fun s2 k2 => flushMetrics s2 k2 (ok k2)) s (k0 :: rest)
        = List.foldl (fun s2 k2 => flushMetrics s2 k2 (ok k2))
            (flushMetrics s k0 (ok k0)) rest := rfl
    rw [hstep]
    apply ih
    intro k2 hk2
    by_cases he : k2 = k0
    · subst he
      rw [hok k2, getBuffer_flushMetrics_true] at hk2
      exact absurd rfl hk2
    · rw [getBuffer_flushMetrics_ne _ _ _ _ he] at hk2
      have hmem := h k2 hk2
      rcases List.mem_cons.mp hmem with h1 | h1
      · exact absurd h1 he
      · exact h1

/-- C4 counterexample: a transport with one buffered record for a key and
a pending idle timer for it; `flushAllMetrics` (with the delivery
succeeding) drains the buffer but leaves the timer scheduled, refuting the
claim that no pending idle-flush timers remain afterwards. -/
theorem c4_counterexample :
    (flushAllMetrics stC4 (fun _ => true)).batchTimers
      = [(bufferKey sidS platBrowser, 30000)] ∧
    getBuffer (flushAllMetrics stC4 (fun _ => true)) (bufferKey sidS platBrowser)
      = [] := by
  refine ⟨by decide, by decide⟩

/-- C4 (amended): `flushAllMetrics` attempts a flush for every currently
known buffer key — when every delivery succeeds, every buffer is empty
afterwards — but it never touches the timer map, so pending idle-flush
timers remain scheduled; only `destroy` clears the timers (and buffers). -/
theorem c4_amended (st : TransportState) (ok : String → Bool) :
    (flushAllMetrics st ok).batchTimers = st.batchTimers ∧
    (∀ k, getBuffer (flushAllMetrics st (fun _ => true)) k = []) ∧
    (destroy st).batchTimers = [] ∧
    (destroy st).metricsBuffer = [] := by
  refine ⟨?_, ?_, rfl, rfl⟩
  · exact foldl_flush_timers (st.metricsBuffer.map Prod.fst) ok st
  · intro k
    apply foldl_flush_drain (st.metricsBuffer.map Prod.fst) (fun _ => true)
      (fun _ => rfl) st
    intro k2 hk2
    cases hmg : mapGet st.metricsBuffer k2 with
    | none => exact absurd (by simp [getBuffer, hmg]) hk2
    | some v => exact mapGet_some_mem _ _ _ hmg

/-- C5 counterexample: two configurations differing in every plain field
produce transports with the identical hard-coded `batchTimeout` of 30000
ms and `batchSize` of 50, and the sweep interval is the literal 300000
ms — the timeout values are hard-coded policy, not exposed configuration,
refuting the configurability conjunct of the claim (the `KuyoConfig`
structure has no timeout field at all). -/
theorem c5_counterexample :
    cfgDev ≠ cfgProd ∧
    (mkFetchTransport cfgDev endpointLocal).batchTimeout = 30000 ∧
    (mkFetchTransport cfgProd endpointOther).batchTimeout = 30000 ∧
    (mkFetchTransport cfgDev endpointLocal).batchSize = 50 ∧
    (mkFetchTransport cfgProd endpointOther).batchSize = 50 ∧
    batchSendIntervalMs = 300000 := by
  refine ⟨by decide, rfl, rfl, rfl, rfl, rfl⟩

/-- C5 (amended): when an `addMetric` call leaves the key's buffer below
the size threshold and no timer is pending for that key, exactly one idle
timer is appended for that key, armed with the transport's `batchTimeout`;
the buffer simply gains the new record.  The `batchTimeout` is 30000 ms
and the batch size 50 for every configuration and endpoint, and the
periodic full-store sweep interval is the constant `5 * 60 * 1000` ms:
both timeouts are hard-coded constants, not exposed configuration. -/
theorem c5_amended (st : TransportState) (sid p : String) (m : PerformanceMetric)
    (ok : Bool)
    (h1 : (getBuffer st (bufferKey sid p)).length + 1 < st.batchSize)
    (h2 : mapGet st.batchTimers (bufferKey sid p) = none) :
    (sendPerformanceMetric st sid p m ok).batchTimers
      = st.batchTimers ++ [(bufferKey sid p, st.batchTimeout)] ∧
    getBuffer (sendPerformanceMetric st sid p m ok) (bufferKey sid p)
      = getBuffer st (bufferKey sid p) ++ [m] ∧
    (∀ (cfg : KuyoConfig) (e : String),
      (mkFetchTransport cfg e).batchTimeout = 30000 ∧
      (mkFetchTransport cfg e).batchSize = 50) ∧
    batchSendIntervalMs = 5 * 60 * 1000 := by
  have hc : ¬ ((pushMetric st (bufferKey sid p) m).batchSize
      ≤ (getBuffer (pushMetric st (bufferKey sid p) m) (bufferKey sid p)).length) := by
    have hlen : (getBuffer (pushMetric st (bufferKey sid p) m) (bufferKey sid p)).length
        = (getBuffer st (bufferKey sid p)).length + 1 := by
      rw [getBuffer_pushMetric_self]
      simp
    have hbs : (pushMetric st (bufferKey sid p) m).batchSize = st.batchSize := rfl
    rw [hlen, hbs]
    omega
  have ht : mapGet (pushMetric st (bufferKey sid p) m).batchTimers (bufferKey sid p)
      = none := h2
  have hsend : sendPerformanceMetric st sid p m ok
      = { pushMetric st (bufferKey sid p) m with
          batchTimers := mapSet st.batchTimers (bufferKey sid p) st.batchTimeout } := by
    unfold sendPerformanceMetric
    rw [if_neg hc, ht]
    rfl
  refine ⟨?_, ?_, fun cfg e => ⟨rfl, rfl⟩, rfl⟩
  · rw [hsend]
    exact mapSet_of_get_none _ _ _ h2
  · rw [hsend]
    exact getBuffer_pushMetric_self st _ m

/-- Witness for C5 (amended): one buffered record, below threshold, no
pending timer. -/
theorem c5_witness :
    ((getBuffer stC1 (bufferKey sidS platBrowser)).length + 1 < stC1.batchSize ∧
     mapGet stC1.batchTimers (bufferKey sidS platBrowser) = none) ∧
    ((sendPerformanceMetric stC1 sidS platBrowser metricHeap true).batchTimers
        = stC1.batchTimers ++ [(bufferKey sidS platBrowser, stC1.batchTimeout)] ∧
     getBuffer (sendPerformanceMetric stC1 sidS platBrowser metricHeap true)
        (bufferKey sidS platBrowser)
        = getBuffer stC1 (bufferKey sidS platBrowser) ++ [metricHeap] ∧
     (∀ (cfg : KuyoConfig) (e : String),
        (mkFetchTransport cfg e).batchTimeout = 30000 ∧
        (mkFetchTransport cfg e).batchSize = 50) ∧
     batchSendIntervalMs = 5 * 60 * 1000) :=
  ⟨⟨by decide, by decide⟩,
   c5_amended stC1 sidS platBrowser metricHeap true (by decide) (by decide)⟩

/-- C6: a delivery failure in `sendEvent` — whether a transport-level
error or a non-2xx response turned into a thrown error by
`FetchTransport.send` — is caught and logged, the event is discarded, and
`captureException`/`captureMessage` always return normally: no delivery
failure ever propagates as an exception to the caller. -/
theorem c6_capture_never_throws (core : CoreState) (err : JsError)
    (msg lvl : String) (extra : Option (List (String × String)))
    (now rand : Nat) (net : Except String FetchResponse) :
    (∃ logs, KuyoCore.captureException core err extra now rand net = Except.ok logs) ∧
    (∃ logs, KuyoCore.captureMessage core msg lvl extra now rand net = Except.ok logs) ∧
    (∀ r : FetchResponse, r.ok = false →
      FetchTransport.send (Except.ok r)
        = Except.error (httpErrTag ++ toString r.status ++ colonSep ++ r.statusText)) ∧
    (∀ e : String, FetchTransport.send (Except.error e) = Except.error e) ∧
    (∀ (ev : KuyoError) (e : String),
      KuyoCore.sendEvent ev (Except.error e)
        = Except.ok [logSendingTag ++ ev.message.getD undefinedText,
                     logFailedTag ++ e]) := by
  refine ⟨?_, ?_, ?_, fun e => rfl, fun ev e => rfl⟩
  · unfold KuyoCore.captureException KuyoCore.sendEvent
    cases hs : FetchTransport.send net with
    | ok u => exact ⟨_, rfl⟩
    | error e => exact ⟨_, rfl⟩
  · unfold KuyoCore.captureMessage KuyoCore.sendEvent
    cases hs : FetchTransport.send net with
    | ok u => exact ⟨_, rfl⟩
    | error e => exact ⟨_, rfl⟩
  · intro r hr
    simp [FetchTransport.send, hr]

/-- Witness for C6 at a concrete non-2xx response: the thrown HTTP error
is produced by the transport and `sendEvent` swallows a failure into its
log lines. -/
theorem c6_witness :
    r500.ok = false ∧
    FetchTransport.send (Except.ok r500)
      = Except.error (httpErrTag ++ toString r500.status ++ colonSep ++ r500.statusText) :=
  ⟨rfl, (c6_capture_never_throws coreFx errFx boomMsg errorLevel none 3 4
      (Except.ok r500)).2.2.1 r500 rfl⟩

/-- C7 counterexample: `init` with an empty API key and the supported
adapter tag throws nothing and installs the adapter — a missing/invalid
credential is never validated at initialization, refuting the claim that
it surfaces a synchronous fatal error. -/
theorem c7_counterexample :
    cfgNoKey.apiKey = "" ∧
    (init cfgNoKey none 1 2 uaTest).thrown = none ∧
    ((init cfgNoKey none 1 2 uaTest).globalCore.map CoreState.adapter)
      = some (some { name := nextjsTag, context := [] }) := by
  refine ⟨rfl, rfl, rfl⟩

/-- C7 (amended): an unsupported adapter tag makes `init` throw the
`Unsupported adapter` error synchronously, with no adapter installed on
the module-level core; the API key plays no role in the outcome of
`init` — replacing it (for example by the empty string) never changes
what is thrown. -/
theorem c7_amended (cfg : KuyoConfig) (storage : Option KuyoSession)
    (now rand : Nat) (ua : String) (h : cfg.adapter ≠ nextjsTag) :
    (init cfg storage now rand ua).thrown = some (unsupportedMsg ++ cfg.adapter) ∧
    ((init cfg storage now rand ua).globalCore.map CoreState.adapter) = some none ∧
    (∀ k, (init { cfg with apiKey := k } storage now rand ua).thrown
        = (init cfg storage now rand ua).thrown) := by
  have hga : getAdapterFor cfg.adapter = Except.error (unsupportedMsg ++ cfg.adapter) := by
    unfold getAdapterFor
    rw [if_neg h]
  refine ⟨?_, ?_, ?_⟩
  · unfold init
    rw [hga]
  · unfold init
    rw [hga]
    rfl
  · intro k
    unfold init
    have hadap : ({ cfg with apiKey := k } : KuyoConfig).adapter = cfg.adapter := rfl
    rw [hadap, hga]

/-- Witness for C7 (amended) at a concrete unsupported tag. -/
theorem c7_witness :
    cfgBad.adapter ≠ nextjsTag ∧
    ((init cfgBad none 1 2 uaTest).thrown = some (unsupportedMsg ++ cfgBad.adapter) ∧
     ((init cfgBad none 1 2 uaTest).globalCore.map CoreState.adapter) = some none ∧
     (∀ k, (init { cfgBad with apiKey := k } none 1 2 uaTest).thrown
        = (init cfgBad none 1 2 uaTest).thrown)) :=
  ⟨by decide, c7_amended cfgBad none 1 2 uaTest (by decide)⟩

/-- C8 counterexample: the synthesized session stores the explicit value 0
in `endedAt` and `duration` — the fields are set to a zero sentinel, not
left unset, refuting that conjunct of the claim. -/
theorem c8_counterexample :
    (initSession cfgDev none 5 7 uaTest).1.endedAt = some 0 ∧
    (initSession cfgDev none 5 7 uaTest).1.duration = some 0 ∧
    (initSession cfgDev none 5 7 uaTest).1.endedAt ≠ none := by
  refine ⟨rfl, rfl, by decide⟩

/-- C8 (amended): with no persisted record, `initSession` synthesizes a
session whose id is the time-based tag-and-base36 prefix concatenated with
a random base-36 suffix, whose environment comes from the configuration
(falling back to production only for a falsy value), whose `startedAt` is
the current time and whose `endedAt` and `duration` are initialized to the
explicit sentinel 0 (not left unset); the session is persisted immediately
and a later call that finds a persisted record reuses it unchanged. -/
theorem c8_amended (cfg : KuyoConfig) (now rand now2 rand2 : Nat) (ua ua2 : String)
    (h : cfg.environment ≠ "") :
    (initSession cfg none now rand ua).2 = some (initSession cfg none now rand ua).1 ∧
    (initSession cfg none now rand ua).1.id = generateSessionId now rand ∧
    generateSessionId now rand
      = kuyoIdTag ++ toString36 now ++ underscoreStr ++ toString36 rand ∧
    (initSession cfg none now rand ua).1.environment = cfg.environment ∧
    (initSession cfg none now rand ua).1.startedAt = now ∧
    (initSession cfg none now rand ua).1.endedAt = some 0 ∧
    (initSession cfg none now rand ua).1.duration = some 0 ∧
    (initSession cfg none now rand ua).1.userAgent = ua ∧
    (∀ s : KuyoSession, initSession cfg (some s) now2 rand2 ua2 = (s, some s)) := by
  refine ⟨rfl, rfl, rfl, ?_, rfl, rfl, rfl, rfl, fun s => rfl⟩
  show (if cfg.environment = "" then productionEnv else cfg.environment) = cfg.environment
  rw [if_neg h]

/-- Witness for C8 (amended) at a concrete first call and reload. -/
theorem c8_witness :
    cfgDev.environment ≠ "" ∧
    ((initSession cfgDev none 5 7 uaTest).2 = some (initSession cfgDev none 5 7 uaTest).1 ∧
     (initSession cfgDev none 5 7 uaTest).1.id = generateSessionId 5 7 ∧
     generateSessionId 5 7
       = kuyoIdTag ++ toString36 5 ++ underscoreStr ++ toString36 7 ∧
     (initSession cfgDev none 5 7 uaTest).1.environment = cfgDev.environment ∧
     (initSession cfgDev none 5 7 uaTest).1.startedAt = 5 ∧
     (initSession cfgDev none 5 7 uaTest).1.endedAt = some 0 ∧
     (initSession cfgDev none 5 7 uaTest).1.duration = some 0 ∧
     (initSession cfgDev none 5 7 uaTest).1.userAgent = uaTest ∧
     (∀ s : KuyoSession, initSession cfgDev (some s) 11 13 uaTest2 = (s, some s))) :=
  ⟨by decide, c8_amended cfgDev 5 7 11 13 uaTest uaTest2 (by decide)⟩

/-- C9: `createEvent` fills every field the caller leaves unset with its
default — the generated id, the current timestamp, level error, the
active adapter's (nonempty) tag or unknown without one, the adapter's
context snapshot or the empty map without one, and the current session —
and every field the caller supplies takes precedence over that default. -/
theorem c9_create_event_defaults (core : CoreState) (params : EventParams)
    (now rand : Nat) :
    ((params.id = none →
        (KuyoCore.createEvent core params now rand).id = generateId rand now) ∧
     (∀ v, params.id = some v → (KuyoCore.createEvent core params now rand).id = v)) ∧
    ((params.timestamp = none →
        (KuyoCore.createEvent core params now rand).timestamp = now) ∧
     (∀ v, params.timestamp = some v →
        (KuyoCore.createEvent core params now rand).timestamp = v)) ∧
    ((params.level = none →
        (KuyoCore.createEvent core params now rand).level = errorLevel) ∧
     (∀ v, params.level = some v →
        (KuyoCore.createEvent core params now rand).level = v)) ∧
    ((params.platform = none → core.adapter = none →
        (KuyoCore.createEvent core params now rand).platform = unknownPlatform) ∧
     (∀ a : KuyoAdapter, params.platform = none → core.adapter = some a →
        a.name ≠ "" →
        (KuyoCore.createEvent core params now rand).platform = a.name) ∧
     (∀ v, params.platform = some v →
        (KuyoCore.createEvent core params now rand).platform = v)) ∧
    ((params.context = none → core.adapter = none →
        (KuyoCore.createEvent core params now rand).context = []) ∧
     (∀ a : KuyoAdapter, params.context = none → core.adapter = some a →
        (KuyoCore.createEvent core params now rand).context = a.context) ∧
     (∀ v, params.context = some v →
        (KuyoCore.createEvent core params now rand).context = v)) ∧
    ((params.session = none →
        (KuyoCore.createEvent core params now rand).session = core.session) ∧
     (∀ v, params.session = some v →
        (KuyoCore.createEvent core params now rand).session = v)) := by
  refine ⟨⟨?_, ?_⟩, ⟨?_, ?_⟩, ⟨?_, ?_⟩, ⟨?_, ?_, ?_⟩, ⟨?_, ?_, ?_⟩, ⟨?_, ?_⟩⟩
  · intro h
    simp [KuyoCore.createEvent, h]
  · intro v h
    simp [KuyoCore.createEvent, h]
  · intro h
    simp [KuyoCore.createEvent, h]
  · intro v h
    simp [KuyoCore.createEvent, h]
  · intro h
    simp [KuyoCore.createEvent, h]
  · intro v h
    simp [KuyoCore.createEvent, h]
  · intro hp ha
    simp [KuyoCore.createEvent, hp, ha, jsOr]
  · intro a hp ha hn
    simp [KuyoCore.createEvent, hp, ha, jsOr, hn]
  · intro v h
    simp [KuyoCore.createEvent, h]
  · intro hp ha
    simp [KuyoCore.createEvent, hp, ha]
  · intro a hp ha
    simp [KuyoCore.createEvent, hp, ha]
  · intro v h
    simp [KuyoCore.createEvent, h]
  · intro h
    simp [KuyoCore.createEvent, h]
  · intro v h
    simp [KuyoCore.createEvent, h]

/-- Witness for C9: an absent level defaults to error while the supplied
id takes precedence. -/
theorem c9_witness :
    paramsFx.level = none ∧
    (KuyoCore.createEvent coreFx paramsFx 3 4).level = errorLevel :=
  ⟨rfl, ((c9_create_event_defaults coreFx paramsFx 3 4).2.2.1).1 rfl⟩

/-- C10: the buffer key is the hyphen concatenation of session id and
platform; splitting recovers the pair exactly whenever neither component
contains a hyphen — which holds for every id this SDK generates, since
generated ids consist of the base-36 characters of the tag, time and
random parts joined by underscores — while for a session id containing a
hyphen the encoding is not injective as a string pairing and the recovered
pair is wrong. -/
theorem c10_key_splitting :
    (∀ sid p : String, bufferKey sid p = sid ++ "-" ++ p) ∧
    (∀ sid p : String, '-' ∉ sid.data → '-' ∉ p.data →
        recoverKey (bufferKey sid p) = (sid, p)) ∧
    (∀ now rand : Nat, '-' ∉ (generateSessionId now rand).data) ∧
    (bufferKey sidA platBC = bufferKey sidAB platC ∧ sidA ≠ sidAB) ∧
    (recoverKey (bufferKey sidAB platBrowser) = (sidA, strB) ∧
      (sidA, strB) ≠ (sidAB, platBrowser)) := by
  refine ⟨fun sid p => rfl, recoverKey_bufferKey, generateSessionId_no_dash,
    ⟨by decide, by decide⟩, ⟨by decide, by decide⟩⟩

/-- Witness for C10: a hyphen-free id round-trips through the key. -/
theorem c10_witness :
    ('-' ∉ sidAbc.data) ∧ ('-' ∉ platBrowser.data) ∧
    recoverKey (bufferKey sidAbc platBrowser) = (sidAbc, platBrowser) :=
  ⟨by decide, by decide,
   (c10_key_splitting.2.1) sidAbc platBrowser (by decide) (by decide)⟩
